import Mathlib

/-!
Verification of the Oura-Recovery-Coach recommendation pipeline.

Shallow embedding of `apps/api/services/ai_coach.py`, `apps/api/models.py`
and the error mapping of `apps/api/main.py`.  Python strings are modelled
as `List Char`, Python `float` values as `Rat` (exact rationals; the
rounding of binary floating point is immaterial to every property proved
here), calendar dates as opaque integers, and Python exceptions as
`Option`/`Except` results.
-/

namespace OuraCoach

/-- Python whitespace set used by `str.strip()`. -/
def pyIsSpace (c : Char) : Bool :=
  c == ' ' || c == '\t' || c == '\x0A' || c == '\x0D' || c == '\x0B' || c == '\x0C'

/-- Drop characters satisfying `p` from the end of a list. -/
def dropEndWhile (p : Char → Bool) (l : List Char) : List Char :=
  (l.reverse.dropWhile p).reverse

/-- Python `str.strip(chars)` : remove characters satisfying `p` from both ends. -/
def stripBoth (p : Char → Bool) (l : List Char) : List Char :=
  dropEndWhile p (l.dropWhile p)

/-- Python `str.strip()` (whitespace on both ends). -/
def stripWs (l : List Char) : List Char :=
  stripBoth pyIsSpace l

/-- `begMatch m s` : `m` is an initial run of `s` (substring anchored at the start). -/
def begMatch : List Char → List Char → Bool
  | [], _ => true
  | _ :: _, [] => false
  | c :: cs, d :: ds => c == d && begMatch cs ds

/-- Python `m in s` : `m` occurs contiguously somewhere in `s`. -/
def containsSub (m : List Char) : List Char → Bool
  | [] => begMatch m []
  | s@(_ :: rest) => begMatch m s || containsSub m rest

/-- Python `str.split('\n')` : split into lines at newline characters. -/
def splitLines : List Char → List (List Char)
  | [] => [[]]
  | c :: rest =>
    let r := splitLines rest
    if c == '\x0A' then [] :: r
    else
      match r with
      | [] => [[c]]
      | l :: ls => (c :: l) :: ls

/-- Python `str.split(":", 1)` restricted to the part after the first colon:
`some (before, after)` at the first `':'`, `none` when the line has no colon
(where Python's `[1]` index would raise). -/
def splitOnceColon : List Char → Option (List Char × List Char)
  | [] => none
  | c :: r =>
    if c == ':' then some ([], r)
    else (splitOnceColon r).map (fun p => (c :: p.1, p.2))

/-- Index of the first occurrence of `m` in `s`, if any (offsets from 0). -/
def firstOccurAux (m : List Char) : List Char → Nat → Option Nat
  | [], i => if begMatch m [] then some i else none
  | s@(_ :: rest), i => if begMatch m s then some i else firstOccurAux m rest (i + 1)

/-- First occurrence of `m` in `s` at index ≥ `start`, if any. -/
def firstOccurFrom (m s : List Char) (start : Nat) : Option Nat :=
  if start > s.length then none
  else
    match firstOccurAux m (s.drop start) 0 with
    | some k => some (start + k)
    | none => none

/-- Python `str.find(sub, start)` : index of first occurrence, `-1` when absent. -/
def pyFind (m s : List Char) (start : Nat) : Int :=
  match firstOccurFrom m s start with
  | some i => (i : Int)
  | none => -1

/-- Python slice `s[a:b]` with the usual index normalisation (negative indices
count from the end, out-of-range indices clamp). -/
def pySlice (s : List Char) (a b : Int) : List Char :=
  let n : Int := s.length
  let norm : Int → Nat := fun i => if i < 0 then (i + n).toNat else i.toNat
  (s.take (norm b)).drop (norm a)

/-- Python `s.strip().startswith('-')` test used for bullet lines. -/
def dashTest (l : List Char) : Bool :=
  match stripWs l with
  | c :: _ => c == '-'
  | [] => false

/-- Python `line.strip('- ').strip()` : the text of a bullet line. -/
def dashContent (l : List Char) : List Char :=
  stripWs (stripBoth (fun c => c == '-' || c == ' ') l)

/-! ## Data model (`apps/api/models.py`)

Calendar dates are opaque integers; optional fields are `Option`. -/

/-- `SleepData` : sleep metrics record. -/
structure SleepData where
  date : Int
  total_sleep_duration : Int
  deep_sleep_duration : Int
  rem_sleep_duration : Int
  light_sleep_duration : Int
  sleep_score : Int
  restfulness : Option Int := none
  sleep_efficiency : Option Int := none
  deriving Repr, DecidableEq

/-- `ReadinessData` : readiness metrics record. -/
structure ReadinessData where
  date : Int
  readiness_score : Int
  temperature_deviation : Option Rat := none
  resting_heart_rate : Option Int := none
  hrv_balance : Option Int := none
  recovery_index : Option Int := none
  previous_night_score : Option Int := none
  sleep_balance : Option Int := none
  activity_balance : Option Int := none
  deriving Repr, DecidableEq

/-- `ActivityData` : activity metrics record. -/
structure ActivityData where
  date : Int
  activity_score : Int
  steps : Int
  total_calories : Int
  active_calories : Int
  target_calories : Int
  training_frequency : Option Int := none
  training_volume : Option Int := none
  recovery_time : Option Int := none
  deriving Repr, DecidableEq

/-- `RecoveryRecommendation` : the structured result of the pipeline. -/
structure RecoveryRecommendation where
  date : Int
  recommendation_type : String
  message : String
  confidence : Rat
  key_factors : List String
  deriving Repr, DecidableEq

/-! ## Fallback helpers of `RecoveryCoach` -/

/-- `_determine_recommendation_type` : readiness-score threshold table. -/
def determineRecommendationType (readiness_data : ReadinessData) : String :=
  let score := readiness_data.readiness_score
  if score ≥ 85 then "peak_performance"
  else if score ≥ 70 then "training_ready"
  else if score ≥ 55 then "moderate_activity"
  else if score ≥ 40 then "light_recovery"
  else "rest_day"

/-- Model of Python `str(float)` on a rational value: sign, integer part and
fractional digits (the exact digit count of CPython repr is immaterial to the
properties proved; this printer is only used inside factor strings). -/
def pyShowFloatFrac : Nat → Rat → String
  | 0, _ => ""
  | fuel + 1, x =>
    if x = 0 then ""
    else
      let d : Nat := (x * 10).floor.toNat
      toString d ++ pyShowFloatFrac fuel (x * 10 - (d : Rat))

/-- Model of Python `str(float)` (see `pyShowFloatFrac`). -/
def pyShowFloat (x : Rat) : String :=
  let sign := if x < 0 then "-" else ""
  let ax := |x|
  let ip : Nat := ax.floor.toNat
  let frac := pyShowFloatFrac 17 (ax - (ip : Rat))
  sign ++ toString ip ++ "." ++ (if frac = "" then "0" else frac)

/-- `_generate_key_factors` : deterministic fallback factor synthesis.  Each
rule mirrors the Python conditions, including Python truthiness: a present
but zero `temperature_deviation` or `hrv_balance` is falsy and skips its rule. -/
def generateKeyFactors (sleep_data : SleepData) (readiness_data : ReadinessData)
    (activity_data : ActivityData) : List String :=
  let sleepF : List String :=
    if sleep_data.sleep_score ≥ 85 then
      ["Excellent sleep quality (" ++ toString sleep_data.sleep_score ++ "/100)"]
    else if sleep_data.sleep_score < 70 then
      ["Poor sleep quality (" ++ toString sleep_data.sleep_score ++ "/100)"]
    else []
  let readyF : List String :=
    if readiness_data.readiness_score ≥ 85 then
      ["High readiness score (" ++ toString readiness_data.readiness_score ++ "/100)"]
    else if readiness_data.readiness_score < 70 then
      ["Low readiness score (" ++ toString readiness_data.readiness_score ++ "/100)"]
    else []
  let tempF : List String :=
    match readiness_data.temperature_deviation with
    | none => []
    | some t =>
      if t ≠ 0 ∧ |t| > 1/2 then
        ["Elevated temperature deviation (" ++ pyShowFloat t ++ "°C)"]
      else []
  let hrvF : List String :=
    match readiness_data.hrv_balance with
    | none => []
    | some h =>
      if h ≠ 0 ∧ h < 60 then
        ["Low HRV balance (" ++ toString h ++ "/100)"]
      else []
  let actF : List String :=
    if activity_data.steps < 5000 then
      ["Low activity yesterday (" ++ toString activity_data.steps ++ " steps)"]
    else []
  (sleepF ++ readyF ++ tempF ++ hrvF ++ actF).take 5

/-! ## Prompt composition (`_build_analysis_prompt`)

Python `float` division raising `ZeroDivisionError` is modelled by `Option`. -/

/-- Python float division: `none` exactly where Python raises `ZeroDivisionError`. -/
def pyDiv (x y : Rat) : Option Rat :=
  if y = 0 then none else some (x / y)

/-- Model of the Python format spec `:.1f` (one fractional digit; the tie-breaking
rounding mode is immaterial to the properties proved). -/
def fmt1 (x : Rat) : String :=
  let n : Int := round (x * 10)
  (if n < 0 then "-" else "") ++ toString (n.natAbs / 10) ++ "." ++ toString (n.natAbs % 10)

/-- Model of the Python format spec `:.0f`. -/
def fmt0 (x : Rat) : String :=
  toString (round x : Int)

/-- Insert a comma after every three least-significant digits (input reversed). -/
def commaGroupAux : List Char → Nat → List Char
  | [], _ => []
  | c :: cs, 3 => ',' :: c :: commaGroupAux cs 1
  | c :: cs, k => c :: commaGroupAux cs (k + 1)

/-- Model of the Python format spec `:,` on an integer. -/
def commaSep (n : Int) : String :=
  (if n < 0 then "-" else "") ++
    String.mk ((commaGroupAux (toString n.natAbs).data.reverse 0).reverse)

/-- Python f-string rendering of an `Optional[int]` field (`None` when absent). -/
def pyShowOptInt : Option Int → String
  | none => "None"
  | some v => toString v

/-- Python f-string rendering of an `Optional[float]` field (`None` when absent). -/
def pyShowOptFloat : Option Rat → String
  | none => "None"
  | some v => pyShowFloat v

/-- `_build_analysis_prompt` : renders the three records into the fixed prompt
template.  Returns `none` exactly where the Python code raises
`ZeroDivisionError` (the three stage-percentage divisions by
`total_sleep_hrs`). -/
def buildAnalysisPrompt (sleep_data : SleepData) (readiness_data : ReadinessData)
    (activity_data : ActivityData) : Option String := do
  let total_sleep_hrs : Rat := (sleep_data.total_sleep_duration : Rat) / 3600
  let deep_sleep_hrs : Rat := (sleep_data.deep_sleep_duration : Rat) / 3600
  let rem_sleep_hrs : Rat := (sleep_data.rem_sleep_duration : Rat) / 3600
  let light_sleep_hrs : Rat := (sleep_data.light_sleep_duration : Rat) / 3600
  let deepPct ← pyDiv deep_sleep_hrs total_sleep_hrs
  let remPct ← pyDiv rem_sleep_hrs total_sleep_hrs
  let lightPct ← pyDiv light_sleep_hrs total_sleep_hrs
  pure (String.intercalate "\n"
    [ "You are an expert recovery coach and sports scientist analyzing health data from an Oura Ring."
    , ""
    , "**Today's Date:** " ++ toString sleep_data.date
    , ""
    , "**SLEEP METRICS:**"
    , "- Sleep Score: " ++ toString sleep_data.sleep_score ++ "/100"
    , "- Total Sleep: " ++ fmt1 total_sleep_hrs ++ " hours"
    , "- Deep Sleep: " ++ fmt1 deep_sleep_hrs ++ " hours (" ++ fmt0 (deepPct * 100) ++ "% of total)"
    , "- REM Sleep: " ++ fmt1 rem_sleep_hrs ++ " hours (" ++ fmt0 (remPct * 100) ++ "% of total)"
    , "- Light Sleep: " ++ fmt1 light_sleep_hrs ++ " hours (" ++ fmt0 (lightPct * 100) ++ "% of total)"
    , "- Sleep Efficiency: " ++ pyShowOptInt sleep_data.sleep_efficiency ++ "%"
    , "- Restfulness: " ++ pyShowOptInt sleep_data.restfulness ++ "/100"
    , ""
    , "**READINESS METRICS:**"
    , "- Readiness Score: " ++ toString readiness_data.readiness_score ++ "/100"
    , "- Resting Heart Rate: " ++ pyShowOptInt readiness_data.resting_heart_rate ++ " bpm"
    , "- HRV Balance: " ++ pyShowOptInt readiness_data.hrv_balance ++ "/100"
    , "- Temperature Deviation: " ++ pyShowOptFloat readiness_data.temperature_deviation
        ++ "°C from baseline"
    , "- Recovery Index: " ++ pyShowOptInt readiness_data.recovery_index ++ "/100"
    , "- Sleep Balance: " ++ pyShowOptInt readiness_data.sleep_balance ++ "/100"
    , "- Activity Balance: " ++ pyShowOptInt readiness_data.activity_balance ++ "/100"
    , ""
    , "**ACTIVITY METRICS (Previous Day):**"
    , "- Activity Score: " ++ toString activity_data.activity_score ++ "/100"
    , "- Steps: " ++ commaSep activity_data.steps
    , "- Total Calories: " ++ toString activity_data.total_calories
    , "- Active Calories: " ++ toString activity_data.active_calories
    , "- Training Volume: " ++ pyShowOptInt activity_data.training_volume ++ " minutes"
    , ""
    , "**CONTEXT & GUIDELINES:**"
    , "- Deep sleep optimal: 1.5-2 hours (15-25% of total sleep)"
    , "- REM sleep optimal: 1.5-2.5 hours (20-25% of total sleep)"
    , "- Resting HR baseline: 55-65 bpm (varies by individual)"
    , "- Temperature deviation >0.5°C may indicate stress, illness, or overtraining"
    , "- Readiness <70 = prioritize recovery, 70-85 = light-moderate activity, >85 = ready for hard training"
    , ""
    , "**YOUR TASK:**"
    , "Analyze this data and provide a recovery recommendation. Format your response EXACTLY as follows:"
    , ""
    , "RECOMMENDATION_TYPE: [choose ONE: rest_day, light_recovery, moderate_activity, training_ready, peak_performance]"
    , ""
    , "KEY_FACTORS:"
    , "- [Factor 1: brief observation about the data]"
    , "- [Factor 2: another key insight]"
    , "- [Factor 3: another key insight]"
    , ""
    , "MESSAGE:"
    , "[2-3 sentences with your main recommendation for today. Be specific and actionable. Mention the most important metrics.]"
    , ""
    , "SPECIFIC_TIPS:"
    , "- [Specific tip #1]"
    , "- [Specific tip #2]"
    , "- [Specific tip #3]"
    , "- [Specific tip #4]"
    , ""
    , "CONFIDENCE: [0.0-1.0, how confident are you in this recommendation based on data quality]"
    , ""
    , "Be direct, specific, and actionable. Focus on what matters most for today's recovery." ])

/-! ## Reply parsing (`_parse_ai_response`)

The `try:` body is embedded as `tryParseBody : Option RecoveryRecommendation`,
returning `none` exactly where the Python body would raise (the `[0]` index on
a marker-line comprehension and the `[1]` index after `split(":", 1)`); the
`except:` branch is `fallbackRecommendation`. -/

/-- The `RECOMMENDATION_TYPE:` marker. -/
def mREC : List Char := "RECOMMENDATION_TYPE:".data

/-- The `KEY_FACTORS:` marker. -/
def mKEY : List Char := "KEY_FACTORS:".data

/-- The `MESSAGE:` marker. -/
def mMSG : List Char := "MESSAGE:".data

/-- The `SPECIFIC_TIPS:` marker. -/
def mTIPS : List Char := "SPECIFIC_TIPS:".data

/-- The `CONFIDENCE:` marker. -/
def mCONF : List Char := "CONFIDENCE:".data

/-- The key-factors for-loop of `_parse_ai_response` (flag `inf` is Python's
`in_factors`; returning cuts the iteration like `break`). -/
def factorsLoop : List (List Char) → Bool → List (List Char)
  | [], _ => []
  | line :: rest, inf =>
    if containsSub mKEY line then factorsLoop rest true
    else if inf && dashTest line then dashContent line :: factorsLoop rest inf
    else if inf && !(stripWs line).isEmpty && !dashTest line then []
    else factorsLoop rest inf

/-- Key factors extracted from the reply (empty when the marker is absent). -/
def extractedFactors (t : List Char) : List (List Char) :=
  if containsSub mKEY t then factorsLoop (splitLines t) false else []

/-- The specific-tips for-loop of `_parse_ai_response` (flag `b` is Python's
`in_tips`; note the stop condition differs from the factors loop: only a line
containing `CONFIDENCE:` breaks). -/
def tipsLoop : List (List Char) → Bool → List (List Char)
  | [], _ => []
  | line :: rest, b =>
    if containsSub mTIPS line then tipsLoop rest true
    else if b && dashTest line then dashContent line :: tipsLoop rest b
    else if b && containsSub mCONF line then []
    else tipsLoop rest b

/-- Specific tips extracted from the reply (empty when the marker is absent). -/
def extractedTips (t : List Char) : List (List Char) :=
  if containsSub mTIPS t then tipsLoop (splitLines t) false else []

/-- The `MESSAGE` extraction of `_parse_ai_response`: `find`-based slicing with
Python's `-1` convention (when both later markers are absent, both `find`
calls return `-1` and the slice `[start:-1]` drops the final character). -/
def messageOf (t : List Char) : List Char :=
  if containsSub mMSG t then
    let message_start : Int := pyFind mMSG t 0 + 8
    let e1 : Int := pyFind mTIPS t message_start.toNat
    let message_end : Int := if e1 = -1 then pyFind mCONF t message_start.toNat else e1
    stripWs (pySlice t message_start message_end)
  else []

/-- Numeric value of a digit string. -/
def natVal (l : List Char) : Nat :=
  l.foldl (fun acc c => acc * 10 + (c.toNat - 48)) 0

/-- Model of Python `float(str)` on plain decimal literals (optional sign,
integer digits, optional fraction); `none` where Python raises `ValueError`.
Exotic accepted forms (exponents, `inf`, `nan`) are not modelled — no property
proved here evaluates them. -/
def parseFloat (l : List Char) : Option Rat :=
  let sl : Rat × List Char :=
    match l with
    | '+' :: r => (1, r)
    | '-' :: r => (-1, r)
    | _ => (1, l)
  let ip := sl.2.takeWhile Char.isDigit
  let rest := sl.2.dropWhile Char.isDigit
  match rest with
  | [] => if ip.isEmpty then none else some (sl.1 * natVal ip)
  | '.' :: fr =>
    if fr.all Char.isDigit && !(ip.isEmpty && fr.isEmpty) then
      some (sl.1 * ((natVal ip : Rat) + (natVal fr : Rat) / (10 : Rat) ^ fr.length))
    else none
  | _ => none

/-- The recommendation-type extraction: default `"moderate_activity"`, else the
trimmed text after the first colon of the first marker line; `none` where the
Python `[0]`/`[1]` index would raise. -/
def recTypeOf (t : List Char) : Option String :=
  if containsSub mREC t then
    match (splitLines t).filter (fun l => containsSub mREC l) with
    | [] => none
    | l :: _ =>
      match splitOnceColon l with
      | none => none
      | some p => some (String.mk (stripWs p.2))
  else some "moderate_activity"

/-- The confidence extraction: default `0.8`, else `float` of the trimmed text
after the first colon of the first marker line, falling back to `0.8` when the
float parse fails; `none` where the Python `[0]`/`[1]` index would raise. -/
def confidenceOf (t : List Char) : Option Rat :=
  if containsSub mCONF t then
    match (splitLines t).filter (fun l => containsSub mCONF l) with
    | [] => none
    | l :: _ =>
      match splitOnceColon l with
      | none => none
      | some p => some ((parseFloat (stripWs p.2)).getD (4/5))
  else some (4/5)

/-- The `try:` body of `_parse_ai_response`. -/
def tryParseBody (t : List Char) (target_date : Int) (sleep_data : SleepData)
    (readiness_data : ReadinessData) (activity_data : ActivityData) :
    Option RecoveryRecommendation := do
  let rec_type ← recTypeOf t
  let key_factors := extractedFactors t
  let message := String.mk (messageOf t)
  let specific_tips := extractedTips t
  let full_message := message ++
    (if specific_tips.isEmpty then ""
     else "\x0A\x0ASpecific Tips:\x0A" ++
       String.intercalate "\x0A" (specific_tips.map (fun tp => "• " ++ String.mk tp)))
  let confidence ← confidenceOf t
  pure
    { date := target_date
      recommendation_type := rec_type
      message := full_message
      confidence := confidence
      key_factors :=
        if key_factors.isEmpty then
          generateKeyFactors sleep_data readiness_data activity_data
        else key_factors.map String.mk }

/-- The `except:` branch of `_parse_ai_response`: readiness-threshold type,
first 500 characters of the raw reply, confidence `0.7`, synthesized factors. -/
def fallbackRecommendation (t : List Char) (target_date : Int)
    (sleep_data : SleepData) (readiness_data : ReadinessData)
    (activity_data : ActivityData) : RecoveryRecommendation :=
  { date := target_date
    recommendation_type := determineRecommendationType readiness_data
    message := String.mk (pySlice t 0 500)
    confidence := 7/10
    key_factors := generateKeyFactors sleep_data readiness_data activity_data }

/-- `_parse_ai_response` : the `try:` body, degrading to the `except:` branch. -/
def parseAiResponse (t : List Char) (target_date : Int) (sleep_data : SleepData)
    (readiness_data : ReadinessData) (activity_data : ActivityData) :
    RecoveryRecommendation :=
  (tryParseBody t target_date sleep_data readiness_data activity_data).getD
    (fallbackRecommendation t target_date sleep_data readiness_data activity_data)

/-! ## `analyze_recovery` and the HTTP error mapping -/

/-- Outcome of the generative-service call in `analyze_recovery`:
success with a reply text, an `anthropic.APIError`, or any other exception. -/
inductive CallOutcome where
  | ok (text : String)
  | apiError (msg : String)
  | otherError (msg : String)
  deriving Repr, DecidableEq

/-- A fault escaping `analyze_recovery`: the raw `ZeroDivisionError` from
prompt construction (which happens before the `try:`), or an `AICoachError`. -/
inductive CoachFault where
  | zeroDivision
  | aiCoachError (msg : String)
  deriving Repr, DecidableEq

/-- `analyze_recovery` : build the prompt (outside the `try:`, so a division
fault propagates raw), then dispatch on the generative call's outcome; call
failures are wrapped in `AICoachError`, successful replies are parsed. -/
def analyzeRecovery (call : CallOutcome) (sleep_data : SleepData)
    (readiness_data : ReadinessData) (activity_data : ActivityData) :
    Except CoachFault RecoveryRecommendation :=
  match buildAnalysisPrompt sleep_data readiness_data activity_data with
  | none => .error .zeroDivision
  | some _ =>
    match call with
    | .ok text =>
      .ok (parseAiResponse text.data sleep_data.date sleep_data readiness_data activity_data)
    | .apiError e => .error (.aiCoachError ("Claude API error: " ++ e))
    | .otherError e => .error (.aiCoachError ("Error generating recommendation: " ++ e))

/-- Outcome of the provider fetch inside an endpoint handler. -/
inductive FetchOutcome (α : Type) where
  | ok (value : α)
  | ouraApiError (msg : String)
  | unexpected (msg : String)
  deriving Repr

/-- An HTTP error response (`HTTPException` status and detail). -/
structure HTTPFailure where
  status : Nat
  detail : String
  deriving Repr, DecidableEq

/-- Gregorian leap-year test (model of Python `datetime.date` validity). -/
def isLeap (y : Nat) : Bool :=
  (y % 4 == 0 && y % 100 != 0) || y % 400 == 0

/-- Days in a month (model of Python `datetime.date` validity). -/
def daysInMonth (y m : Nat) : Nat :=
  if m = 2 then (if isLeap y then 29 else 28)
  else if m = 4 ∨ m = 6 ∨ m = 9 ∨ m = 11 then 30
  else 31

/-- Model of `date.fromisoformat` : strict `YYYY-MM-DD`, `none` where Python
raises `ValueError`. -/
def parseIsoDate (st : String) : Option (Nat × Nat × Nat) :=
  match st.data with
  | [y1, y2, y3, y4, '-', n1, n2, '-', d1, d2] =>
    if [y1, y2, y3, y4, n1, n2, d1, d2].all Char.isDigit then
      let y := natVal [y1, y2, y3, y4]
      let m := natVal [n1, n2]
      let d := natVal [d1, d2]
      if 1 ≤ y ∧ 1 ≤ m ∧ m ≤ 12 ∧ 1 ≤ d ∧ d ≤ daysInMonth y m then some (y, m, d)
      else none
    else none
  | _ => none

/-- `GET /api/oura/sleep/{date_str}` handler (`get_sleep_data` in `main.py`):
400 on malformed date, 503 on `OuraAPIError`, 500 on any other exception. -/
def get_sleep_data (date_str : String) (fetch : FetchOutcome SleepData) :
    Except HTTPFailure SleepData :=
  match parseIsoDate date_str with
  | none => .error ⟨400, "Invalid date format. Use YYYY-MM-DD"⟩
  | some _ =>
    match fetch with
    | .ok v => .ok v
    | .ouraApiError e => .error ⟨503, "Oura API error: " ++ e⟩
    | .unexpected e => .error ⟨500, "Internal error: " ++ e⟩

/-- `GET /api/oura/readiness/{date_str}` handler (`get_readiness_data` in
`main.py`): 400 on malformed date, **509** on `OuraAPIError` (the literal in
the source), 500 on any other exception. -/
def get_readiness_data (date_str : String) (fetch : FetchOutcome ReadinessData) :
    Except HTTPFailure ReadinessData :=
  match parseIsoDate date_str with
  | none => .error ⟨400, "Invalid date format. Use YYYY-MM-DD"⟩
  | some _ =>
    match fetch with
    | .ok v => .ok v
    | .ouraApiError e => .error ⟨509, "Oura API error: " ++ e⟩
    | .unexpected e => .error ⟨500, "Internal error: " ++ e⟩

/-- `GET /api/oura/activity/{date_str}` handler (`get_activity_data` in
`main.py`): 400 on malformed date, 503 on `OuraAPIError`, 500 otherwise. -/
def get_activity_data (date_str : String) (fetch : FetchOutcome ActivityData) :
    Except HTTPFailure ActivityData :=
  match parseIsoDate date_str with
  | none => .error ⟨400, "Invalid date format. Use YYYY-MM-DD"⟩
  | some _ =>
    match fetch with
    | .ok v => .ok v
    | .ouraApiError e => .error ⟨503, "Oura API error: " ++ e⟩
    | .unexpected e => .error ⟨500, "Internal error: " ++ e⟩

/-! ## Declarative descriptions of the extraction loops

These definitions follow the wording of the specification (amended where the
code differs); the theorems below compare them with the loop embeddings from
the source. -/

/-- The lines strictly after the first line containing the marker `m`. -/
def sectionAfter (m : List Char) : List (List Char) → List (List Char)
  | [] => []
  | l :: r => if containsSub m l then r else sectionAfter m r

/-- Declarative key-factors collection: skip further marker lines, collect
dash lines, stop at the first other non-blank line, skip blank lines. -/
def specFactorsCollect : List (List Char) → List (List Char)
  | [] => []
  | l :: r =>
    if containsSub mKEY l then specFactorsCollect r
    else if dashTest l then dashContent l :: specFactorsCollect r
    else if !(stripWs l).isEmpty then []
    else specFactorsCollect r

/-- Declarative specific-tips collection: skip further marker lines, collect
dash lines, stop only at the first line containing `CONFIDENCE:`. -/
def specTipsCollect : List (List Char) → List (List Char)
  | [] => []
  | l :: r =>
    if containsSub mTIPS l then specTipsCollect r
    else if dashTest l then dashContent l :: specTipsCollect r
    else if containsSub mCONF l then []
    else specTipsCollect r

/-- Declarative form of the extracted key factors. -/
def specCollectedFactors (t : List Char) : List (List Char) :=
  if containsSub mKEY t then specFactorsCollect (sectionAfter mKEY (splitLines t)) else []

/-- Declarative form of the extracted specific tips. -/
def specCollectedTips (t : List Char) : List (List Char) :=
  if containsSub mTIPS t then specTipsCollect (sectionAfter mTIPS (splitLines t)) else []

/-- Bulleted-section collection exactly as claim C7 words it for both
sections: collect dash lines, stop at the first non-blank non-dash line. -/
def claimedBulletCollect : List (List Char) → List (List Char)
  | [] => []
  | l :: r =>
    if dashTest l then dashContent l :: claimedBulletCollect r
    else if !(stripWs l).isEmpty then []
    else claimedBulletCollect r

/-- The specific tips as claim C7, taken literally, would predict them. -/
def claimedTipsOf (t : List Char) : List (List Char) :=
  if containsSub mTIPS t then claimedBulletCollect (sectionAfter mTIPS (splitLines t)) else []

/-- The `MESSAGE` extraction as the amended claim C8 describes it: the
stripped substring from after the marker to the first `SPECIFIC_TIPS:` at or
after it, else to the first `CONFIDENCE:` at or after it, else to the end of
the text minus its final character. -/
def specMessageOf (t : List Char) : List Char :=
  if containsSub mMSG t then
    match firstOccurFrom mMSG t 0 with
    | none => []
    | some i =>
      let ms := i + 8
      let content :=
        match firstOccurFrom mTIPS t ms with
        | some j => (t.take j).drop ms
        | none =>
          match firstOccurFrom mCONF t ms with
          | some j => (t.take j).drop ms
          | none => (t.take (t.length - 1)).drop ms
      stripWs content
  else []

/-! ## Concrete records used by witnesses and counterexamples -/

/-- Example sleep record (8 h total, sleep score 90). -/
def exS : SleepData :=
  { date := 0, total_sleep_duration := 28800, deep_sleep_duration := 7200,
    rem_sleep_duration := 7200, light_sleep_duration := 14400, sleep_score := 90 }

/-- Example sleep record with zero total sleep. -/
def exSZero : SleepData := { exS with total_sleep_duration := 0 }

/-- Example sleep record with a mid-range sleep score (no sleep factor). -/
def exSMid : SleepData := { exS with sleep_score := 75 }

/-- Example readiness record with readiness score 45. -/
def exR45 : ReadinessData := { date := 0, readiness_score := 45 }

/-- Example readiness record with readiness score 90. -/
def exR90 : ReadinessData := { date := 0, readiness_score := 90 }

/-- Example readiness record with a present-but-zero HRV balance. -/
def exRhrv0 : ReadinessData :=
  { date := 0, readiness_score := 75, hrv_balance := some 0 }

/-- Example activity record with 3000 steps. -/
def exA : ActivityData :=
  { date := 0, activity_score := 50, steps := 3000, total_calories := 2000,
    active_calories := 400, target_calories := 500 }

/-- Example activity record with 6000 steps (no activity factor). -/
def exAHigh : ActivityData := { exA with steps := 6000 }

/-- Readiness record with a given score (boundary tests). -/
def rbound (n : Int) : ReadinessData := { date := 0, readiness_score := n }

/-! ## Structural lemmas about the string model -/

/-- A character of an anchored match occurs in the matched list. -/
theorem begMatch_mem {m l : List Char} {a : Char} (h : begMatch m l = true)
    (ha : a ∈ m) : a ∈ l := by
  induction m generalizing l with
  | nil => cases ha
  | cons c cs ih =>
    cases l with
    | nil => simp [begMatch] at h
    | cons d ds =>
      simp only [begMatch, Bool.and_eq_true, beq_iff_eq] at h
      rcases List.mem_cons.1 ha with rfl | hm
      · exact h.1 ▸ List.mem_cons_self _ _
      · exact List.mem_cons_of_mem _ (ih h.2 hm)

/-- A character of a substring occurs in the containing list. -/
theorem containsSub_mem {m l : List Char} {a : Char} (h : containsSub m l = true)
    (ha : a ∈ m) : a ∈ l := by
  induction l with
  | nil => exact begMatch_mem h ha
  | cons d ds ih =>
    simp only [containsSub, Bool.or_eq_true] at h
    rcases h with h | h
    · exact begMatch_mem h ha
    · exact List.mem_cons_of_mem _ (ih h)

/-- An anchored match is in particular a substring occurrence. -/
theorem begMatch_containsSub {m l : List Char} (h : begMatch m l = true) :
    containsSub m l = true := by
  cases l with
  | nil => exact h
  | cons d ds => simp [containsSub, h]

/-- `splitLines` never returns the empty list of lines. -/
theorem splitLines_ne_nil (t : List Char) : splitLines t ≠ [] := by
  cases t with
  | nil => simp [splitLines]
  | cons c rest =>
    simp only [splitLines]
    split
    · simp
    · split <;> simp_all

/-- A newline-free anchored match is an anchored match of the first line. -/
theorem begMatch_firstLine {m : List Char} (hnl : ∀ c ∈ m, c ≠ '\x0A') :
    ∀ {s : List Char}, begMatch m s = true →
      ∃ l ls, splitLines s = l :: ls ∧ begMatch m l = true := by
  induction m with
  | nil =>
    intro s _
    rcases hs : splitLines s with _ | ⟨l, ls⟩
    · exact absurd hs (splitLines_ne_nil s)
    · exact ⟨l, ls, rfl, rfl⟩
  | cons c cs ih =>
    intro s h
    cases s with
    | nil => simp [begMatch] at h
    | cons d ds =>
      simp only [begMatch, Bool.and_eq_true, beq_iff_eq] at h
      obtain ⟨rfl, h2⟩ := h
      have hd : ¬ (c == '\x0A') = true := by
        simpa using hnl c (List.mem_cons_self _ _)
      obtain ⟨l, ls, hls, hb⟩ := ih (fun a ha => hnl a (List.mem_cons_of_mem _ ha)) h2
      refine ⟨c :: l, ls, ?_, ?_⟩
      · simp [splitLines, hd, hls]
      · simp [begMatch, hb]

/-- A newline-free substring of a text occurs inside one of its lines. -/
theorem containsSub_line {m : List Char} (hnl : ∀ c ∈ m, c ≠ '\x0A') :
    ∀ {t : List Char}, containsSub m t = true →
      ∃ l ∈ splitLines t, containsSub m l = true := by
  intro t
  induction t with
  | nil =>
    intro h
    exact ⟨[], by simp [splitLines], h⟩
  | cons c rest ih =>
    intro h
    simp only [containsSub, Bool.or_eq_true] at h
    rcases h with h | h
    · obtain ⟨l, ls, hls, hb⟩ := begMatch_firstLine hnl h
      exact ⟨l, by simp [hls], begMatch_containsSub hb⟩
    · obtain ⟨l, hl, hc⟩ := ih h
      by_cases hd : (c == '\x0A') = true
      · exact ⟨l, by simp [splitLines, hd, hl], hc⟩
      · rcases hr : splitLines rest with _ | ⟨l0, ls0⟩
        · exact absurd hr (splitLines_ne_nil rest)
        · rw [hr] at hl
          rcases List.mem_cons.1 hl with rfl | hl'
          · refine ⟨c :: l, ?_, ?_⟩
            · simp [splitLines, hd, hr]
            · simp [containsSub, hc]
          · exact ⟨l, by simp [splitLines, hd, hr, hl'], hc⟩

/-- When a newline-free marker occurs in the text, the Python line
comprehension `[line for line in text.split('\n') if marker in line]`
is nonempty. -/
theorem filter_marker_ne_nil {m t : List Char} (hnl : ∀ c ∈ m, c ≠ '\x0A')
    (h : containsSub m t = true) :
    (splitLines t).filter (fun l => containsSub m l) ≠ [] := by
  obtain ⟨l, hl, hc⟩ := containsSub_line hnl h
  intro hnil
  have := (List.filter_eq_nil_iff.1 hnil) l hl
  simp [hc] at this

/-- A line containing a colon splits at its first colon. -/
theorem splitOnceColon_isSome {l : List Char} (h : ':' ∈ l) :
    (splitOnceColon l).isSome = true := by
  induction l with
  | nil => cases h
  | cons c cs ih =>
    simp only [splitOnceColon]
    by_cases hc : (c == ':') = true
    · simp [hc]
    · rcases List.mem_cons.1 h with rfl | h'
      · simp at hc
      · simp only [hc, if_false]
        obtain ⟨p, hp⟩ := Option.isSome_iff_exists.1 (ih h')
        simp [hp]

/-- The recommendation-type extraction never raises. -/
theorem recTypeOf_isSome (t : List Char) : (recTypeOf t).isSome = true := by
  unfold recTypeOf
  split
  · rcases hf : (splitLines t).filter (fun l => containsSub mREC l) with _ | ⟨l, ls⟩
    · exact absurd hf (filter_marker_ne_nil (by decide) (by assumption))
    · have hl : containsSub mREC l = true := by
        have : l ∈ (splitLines t).filter (fun l => containsSub mREC l) := by
          simp [hf]
        simpa using (List.mem_filter.1 this).2
      have hcolon : ':' ∈ l := containsSub_mem hl (by decide)
      obtain ⟨p, hp⟩ := Option.isSome_iff_exists.1 (splitOnceColon_isSome hcolon)
      simp [hp]
  · simp

/-- The confidence extraction never raises. -/
theorem confidenceOf_isSome (t : List Char) : (confidenceOf t).isSome = true := by
  unfold confidenceOf
  split
  · rcases hf : (splitLines t).filter (fun l => containsSub mCONF l) with _ | ⟨l, ls⟩
    · exact absurd hf (filter_marker_ne_nil (by decide) (by assumption))
    · have hl : containsSub mCONF l = true := by
        have : l ∈ (splitLines t).filter (fun l => containsSub mCONF l) := by
          simp [hf]
        simpa using (List.mem_filter.1 this).2
      have hcolon : ':' ∈ l := containsSub_mem hl (by decide)
      obtain ⟨p, hp⟩ := Option.isSome_iff_exists.1 (splitOnceColon_isSome hcolon)
      simp [hp]
  · simp

/-- The `try:` body of `_parse_ai_response` never raises: every fallible step
(the `[0]` line lookups and `split(":", 1)[1]`) succeeds on every reply. -/
theorem tryParseBody_isSome (t : List Char) (d : Int) (s : SleepData)
    (r : ReadinessData) (a : ActivityData) :
    (tryParseBody t d s r a).isSome = true := by
  obtain ⟨rt, hrt⟩ := Option.isSome_iff_exists.1 (recTypeOf_isSome t)
  obtain ⟨cf, hcf⟩ := Option.isSome_iff_exists.1 (confidenceOf_isSome t)
  simp [tryParseBody, hrt, hcf]

/-- The synthesized factor list is capped at five entries. -/
theorem generateKeyFactors_length_le (s : SleepData) (r : ReadinessData)
    (a : ActivityData) : (generateKeyFactors s r a).length ≤ 5 := by
  unfold generateKeyFactors
  simp only [List.length_take]
  omega

/-- Prompt construction succeeds whenever the total sleep duration is
nonzero: all three stage-percentage divisions are defined. -/
theorem buildAnalysisPrompt_isSome (s : SleepData) (r : ReadinessData)
    (a : ActivityData) (h : s.total_sleep_duration ≠ 0) :
    (buildAnalysisPrompt s r a).isSome = true := by
  have ht : ((s.total_sleep_duration : Rat) / 3600) ≠ 0 := by
    refine div_ne_zero ?_ (by norm_num)
    exact_mod_cast h
  simp [buildAnalysisPrompt, pyDiv, ht]

/-- Once the key-factors flag is set it stays set: the loop coincides with
the declarative collection. -/
theorem factorsLoop_true (ls : List (List Char)) :
    factorsLoop ls true = specFactorsCollect ls := by
  induction ls with
  | nil => rfl
  | cons l r ih =>
    simp only [factorsLoop, specFactorsCollect, Bool.true_and]
    by_cases h1 : containsSub mKEY l = true
    · simp [h1, ih]
    · by_cases h2 : dashTest l = true
      · simp [h1, h2, ih]
      · by_cases h3 : (!(stripWs l).isEmpty) = true
        · simp [h1, h2, h3]
        · simp [h1, h2, h3, ih]

/-- Before its marker is seen, the key-factors loop only scans for the marker. -/
theorem factorsLoop_false (ls : List (List Char)) :
    factorsLoop ls false = specFactorsCollect (sectionAfter mKEY ls) := by
  induction ls with
  | nil => rfl
  | cons l r ih =>
    simp only [factorsLoop, sectionAfter, Bool.false_and]
    by_cases h1 : containsSub mKEY l = true
    · simp [h1, factorsLoop_true]
    · simp [h1, ih]

/-- Once the tips flag is set it stays set: the loop coincides with the
declarative collection. -/
theorem tipsLoop_true (ls : List (List Char)) :
    tipsLoop ls true = specTipsCollect ls := by
  induction ls with
  | nil => rfl
  | cons l r ih =>
    simp only [tipsLoop, specTipsCollect, Bool.true_and]
    by_cases h1 : containsSub mTIPS l = true
    · simp [h1, ih]
    · by_cases h2 : dashTest l = true
      · simp [h1, h2, ih]
      · by_cases h3 : containsSub mCONF l = true
        · simp [h1, h2, h3]
        · simp [h1, h2, h3, ih]

/-- Before its marker is seen, the tips loop only scans for the marker. -/
theorem tipsLoop_false (ls : List (List Char)) :
    tipsLoop ls false = specTipsCollect (sectionAfter mTIPS ls) := by
  induction ls with
  | nil => rfl
  | cons l r ih =>
    simp only [tipsLoop, sectionAfter, Bool.false_and]
    by_cases h1 : containsSub mTIPS l = true
    · simp [h1, tipsLoop_true]
    · simp [h1, ih]

/-- The index search succeeds exactly when the substring occurs. -/
theorem firstOccurAux_isSome (m : List Char) :
    ∀ (t : List Char) (i : Nat), (firstOccurAux m t i).isSome = containsSub m t := by
  intro t
  induction t with
  | nil =>
    intro i
    by_cases h : begMatch m [] = true <;> simp [firstOccurAux, containsSub, h]
  | cons c rest ih =>
    intro i
    by_cases h : begMatch m (c :: rest) = true <;>
      simp [firstOccurAux, containsSub, h, ih]

/-- Python slicing with two natural indices is `take`/`drop`. -/
theorem pySlice_natCast (t : List Char) (a b : Nat) :
    pySlice t (a : Int) (b : Int) = (t.take b).drop a := by
  simp only [pySlice]
  rw [if_neg (show ¬ ((a : Int) < 0) by omega), if_neg (show ¬ ((b : Int) < 0) by omega)]
  simp

/-- Python slicing to `-1` drops the final character. -/
theorem pySlice_neg_one (t : List Char) (a : Nat) :
    pySlice t (a : Int) (-1) = (t.take (t.length - 1)).drop a := by
  simp only [pySlice]
  rw [if_neg (show ¬ ((a : Int) < 0) by omega), if_pos (show (-1 : Int) < 0 by omega)]
  have h1 : (-1 + (t.length : Int)).toNat = t.length - 1 := by omega
  simp only [h1, Int.toNat_natCast]

/-! ## Claim theorems -/

/-- C1 (counterexample): for the empty reply — which contains none of the five
markers — with readiness score 90, the parser returns the fixed default type
`moderate_activity` and confidence `0.8`, not the readiness-threshold type
`peak_performance` and not confidence `0.7` as the claim states. -/
theorem claim1_counterexample :
    (parseAiResponse [] 0 exS exR90 exA).recommendation_type = "moderate_activity" ∧
    (parseAiResponse [] 0 exS exR90 exA).confidence = 4/5 ∧
    determineRecommendationType exR90 = "peak_performance" ∧
    ("moderate_activity" : String) ≠ "peak_performance" ∧
    ((4/5 : Rat) ≠ 7/10) := by
  refine ⟨rfl, rfl, rfl, by decide, by norm_num⟩

/-- C1 (amended): for every record triple and reply, the parser returns a
`RecoveryRecommendation` without raising; for a reply containing none of the
five markers the returned `recommendation_type` is the fixed default
`moderate_activity`, the message is empty, the confidence is `0.8`, and the
key factors are the synthesized fallback factors. -/
theorem claim1_amended (t : List Char) (d : Int) (s : SleepData)
    (r : ReadinessData) (a : ActivityData)
    (h1 : containsSub mREC t = false) (h2 : containsSub mKEY t = false)
    (h3 : containsSub mMSG t = false) (h4 : containsSub mTIPS t = false)
    (h5 : containsSub mCONF t = false) :
    parseAiResponse t d s r a =
      { date := d, recommendation_type := "moderate_activity", message := "",
        confidence := 4/5, key_factors := generateKeyFactors s r a } := by
  simp [parseAiResponse, tryParseBody, recTypeOf, confidenceOf, extractedFactors,
    extractedTips, messageOf, h1, h2, h3, h4, h5]

/-- C1 (witness): the amended statement at the empty reply. -/
theorem claim1_witness :
    parseAiResponse [] 0 exS exR45 exA =
      { date := 0, recommendation_type := "moderate_activity", message := "",
        confidence := 4/5, key_factors := generateKeyFactors exS exR45 exA } :=
  claim1_amended [] 0 exS exR45 exA rfl rfl rfl rfl rfl

/-- C2 (code_bug): for every record triple with `total_sleep_duration = 0`,
building the analysis prompt raises `ZeroDivisionError` (modelled as `none`)
instead of rendering the stage percentages as "not applicable". -/
theorem claim2_zero_total_sleep_raises (s : SleepData) (r : ReadinessData)
    (a : ActivityData) (h : s.total_sleep_duration = 0) :
    buildAnalysisPrompt s r a = none := by
  have ht : ((s.total_sleep_duration : Rat) / 3600) = 0 := by
    rw [h]; norm_num
  simp [buildAnalysisPrompt, pyDiv, ht]

/-- C2 (witness): the failing input — a sleep record with zero total sleep. -/
theorem claim2_witness : buildAnalysisPrompt exSZero exR45 exA = none :=
  claim2_zero_total_sleep_raises exSZero exR45 exA rfl

/-- C3 (counterexample): when the generative call itself fails, no
`Recommendation` (with an apology text or otherwise) is constructed — the
call raises `AICoachError`. -/
theorem claim3_counterexample :
    analyzeRecovery (.apiError "boom") exS exR45 exA =
      .error (.aiCoachError "Claude API error: boom") := by
  obtain ⟨p, hp⟩ := Option.isSome_iff_exists.1
    (buildAnalysisPrompt_isSome exS exR45 exA (by decide))
  simp [analyzeRecovery, hp]

/-- C3 (amended): when the generative call fails (API error or any other
exception) no `Recommendation` is constructed: `analyze_recovery` reports a
distinct `AICoachError` wrapping the fault; when the call succeeds the
parsed `Recommendation` is returned, and the parse body never raises (so the
internal 0.7-confidence fallback branch is unreachable and `AICoachError`
arises only from the call itself). -/
theorem claim3_amended (s : SleepData) (r : ReadinessData) (a : ActivityData)
    (e tx : String) (hp : (buildAnalysisPrompt s r a).isSome = true) :
    analyzeRecovery (.apiError e) s r a =
      .error (.aiCoachError ("Claude API error: " ++ e)) ∧
    analyzeRecovery (.otherError e) s r a =
      .error (.aiCoachError ("Error generating recommendation: " ++ e)) ∧
    analyzeRecovery (.ok tx) s r a =
      .ok (parseAiResponse tx.data s.date s r a) ∧
    (tryParseBody tx.data s.date s r a).isSome = true := by
  obtain ⟨p, hp'⟩ := Option.isSome_iff_exists.1 hp
  exact ⟨by simp [analyzeRecovery, hp'], by simp [analyzeRecovery, hp'],
    by simp [analyzeRecovery, hp'], tryParseBody_isSome _ _ _ _ _⟩

/-- C3 (witness): the amended statement at a concrete triple and reply. -/
theorem claim3_witness :
    analyzeRecovery (.apiError "x") exS exR45 exA =
      .error (.aiCoachError ("Claude API error: " ++ "x")) ∧
    analyzeRecovery (.otherError "x") exS exR45 exA =
      .error (.aiCoachError ("Error generating recommendation: " ++ "x")) ∧
    analyzeRecovery (.ok "") exS exR45 exA =
      .ok (parseAiResponse "".data exS.date exS exR45 exA) ∧
    (tryParseBody "".data exS.date exS exR45 exA).isSome = true :=
  claim3_amended exS exR45 exA "x" ""
    (buildAnalysisPrompt_isSome exS exR45 exA (by decide))

/-- C4 (confirmed): the fallback recommendation type follows the readiness
threshold table (≥85 peak_performance, ≥70 training_ready, ≥55
moderate_activity, ≥40 light_recovery, else rest_day), and the eight boundary
scores map as the claim lists them. -/
theorem claim4_threshold_table (r : ReadinessData) :
    (85 ≤ r.readiness_score → determineRecommendationType r = "peak_performance") ∧
    (70 ≤ r.readiness_score → r.readiness_score < 85 →
      determineRecommendationType r = "training_ready") ∧
    (55 ≤ r.readiness_score → r.readiness_score < 70 →
      determineRecommendationType r = "moderate_activity") ∧
    (40 ≤ r.readiness_score → r.readiness_score < 55 →
      determineRecommendationType r = "light_recovery") ∧
    (r.readiness_score < 40 → determineRecommendationType r = "rest_day") ∧
    (determineRecommendationType (rbound 39) = "rest_day" ∧
     determineRecommendationType (rbound 40) = "light_recovery" ∧
     determineRecommendationType (rbound 54) = "light_recovery" ∧
     determineRecommendationType (rbound 55) = "moderate_activity" ∧
     determineRecommendationType (rbound 69) = "moderate_activity" ∧
     determineRecommendationType (rbound 70) = "training_ready" ∧
     determineRecommendationType (rbound 84) = "training_ready" ∧
     determineRecommendationType (rbound 85) = "peak_performance") := by
  refine ⟨?_, ?_, ?_, ?_, ?_, by decide⟩ <;>
    (intros; simp only [determineRecommendationType]; split_ifs <;> first | rfl | omega)

/-- C4 (witness): the threshold table at the boundary score 85. -/
theorem claim4_witness : determineRecommendationType (rbound 85) = "peak_performance" :=
  (claim4_threshold_table (rbound 85)).1 (by decide)

/-- C5 (counterexample): with `hrv_balance` present and equal to `0` (which
satisfies the claim's firing condition `present ∧ hrv_balance < 60`), the
synthesized factor list contains no HRV factor: Python truthiness makes a
zero value skip the rule. -/
theorem claim5_counterexample :
    exRhrv0.hrv_balance = some 0 ∧ ((0 : Int) < 60) ∧
    generateKeyFactors exSMid exRhrv0 exAHigh = [] := by
  refine ⟨rfl, by decide, by decide⟩

/-- C5 (amended): fallback factor synthesis evaluates its five rules in the
fixed order (sleep, readiness, temperature, HRV, steps) and includes exactly
the factors whose condition triggers, where the temperature rule fires iff
`temperature_deviation` is present, nonzero and of magnitude above 0.5, and
the HRV rule fires iff `hrv_balance` is present, nonzero and below 60; the
cap of 5 never truncates (at most one factor per rule), and the example
triple (sleep 90 / readiness 45 / steps 3000) yields the three expected
factors in order. -/
theorem claim5_amended (s : SleepData) (r : ReadinessData) (a : ActivityData) :
    generateKeyFactors s r a =
      (if s.sleep_score ≥ 85 then
        ["Excellent sleep quality (" ++ toString s.sleep_score ++ "/100)"]
       else if s.sleep_score < 70 then
        ["Poor sleep quality (" ++ toString s.sleep_score ++ "/100)"]
       else []) ++
      (if r.readiness_score ≥ 85 then
        ["High readiness score (" ++ toString r.readiness_score ++ "/100)"]
       else if r.readiness_score < 70 then
        ["Low readiness score (" ++ toString r.readiness_score ++ "/100)"]
       else []) ++
      (match r.temperature_deviation with
       | none => []
       | some tv =>
         if tv ≠ 0 ∧ |tv| > 1/2 then
           ["Elevated temperature deviation (" ++ pyShowFloat tv ++ "°C)"]
         else []) ++
      (match r.hrv_balance with
       | none => []
       | some hb =>
         if hb ≠ 0 ∧ hb < 60 then
           ["Low HRV balance (" ++ toString hb ++ "/100)"]
         else []) ++
      (if a.steps < 5000 then
        ["Low activity yesterday (" ++ toString a.steps ++ " steps)"]
       else []) ∧
    (generateKeyFactors s r a).length ≤ 5 ∧
    generateKeyFactors exS exR45 exA =
      ["Excellent sleep quality (90/100)", "Low readiness score (45/100)",
       "Low activity yesterday (3000 steps)"] := by
  refine ⟨?_, generateKeyFactors_length_le s r a, by decide⟩
  refine List.take_of_length_le ?_
  rcases r.temperature_deviation with _ | tv <;>
    rcases r.hrv_balance with _ | hb <;>
    simp only [List.length_append] <;>
    split_ifs <;> simp

/-- C6 (counterexample): a reply whose `KEY_FACTORS` section holds six dash
lines yields a `Recommendation` with six key factors — the 5-cap applies only
to synthesized factors, not to extracted ones. -/
theorem claim6_counterexample :
    (parseAiResponse "KEY_FACTORS:\x0A- a\x0A- b\x0A- c\x0A- d\x0A- e\x0A- f\x0AEND".data
        0 exS exR45 exA).key_factors.length = 6 ∧
    ¬ ((parseAiResponse "KEY_FACTORS:\x0A- a\x0A- b\x0A- c\x0A- d\x0A- e\x0A- f\x0AEND".data
        0 exS exR45 exA).key_factors.length ≤ 5) := by
  refine ⟨rfl, by decide⟩

/-- C6 (amended): every `Recommendation` whose key factors were synthesized by
the fallback rule (nothing was extracted from the reply) has at most 5 key
factors; factors extracted from a `KEY_FACTORS` section are not capped. -/
theorem claim6_amended (t : List Char) (d : Int) (s : SleepData)
    (r : ReadinessData) (a : ActivityData) (h : extractedFactors t = []) :
    (parseAiResponse t d s r a).key_factors.length ≤ 5 := by
  rcases hrt : recTypeOf t with _ | rt
  · simp [parseAiResponse, tryParseBody, hrt, fallbackRecommendation,
      generateKeyFactors_length_le]
  · rcases hcf : confidenceOf t with _ | cf
    · simp [parseAiResponse, tryParseBody, hrt, hcf, fallbackRecommendation,
        generateKeyFactors_length_le]
    · simp [parseAiResponse, tryParseBody, hrt, hcf, h,
        generateKeyFactors_length_le]

/-- C6 (witness): the amended statement at the empty reply. -/
theorem claim6_witness : (parseAiResponse [] 0 exS exR45 exA).key_factors.length ≤ 5 :=
  claim6_amended [] 0 exS exR45 exA rfl

/-- C7 (counterexample): in the reply
`SPECIFIC_TIPS:\n- a\nxyz\n- b\nCONFIDENCE: 1`, tips collection does not stop
at the non-blank non-dash line `xyz` — the code collects `b` as well, while
the claim predicts collection stops and only `a` is kept. -/
theorem claim7_counterexample :
    (extractedTips "SPECIFIC_TIPS:\x0A- a\x0Axyz\x0A- b\x0ACONFIDENCE: 1".data).map
        String.mk = ["a", "b"] ∧
    (claimedTipsOf "SPECIFIC_TIPS:\x0A- a\x0Axyz\x0A- b\x0ACONFIDENCE: 1".data).map
        String.mk = ["a"] ∧
    extractedTips "SPECIFIC_TIPS:\x0A- a\x0Axyz\x0A- b\x0ACONFIDENCE: 1".data ≠
      claimedTipsOf "SPECIFIC_TIPS:\x0A- a\x0Axyz\x0A- b\x0ACONFIDENCE: 1".data := by
  refine ⟨rfl, rfl, by decide⟩

/-- C7 (amended): `KEY_FACTORS` collection considers the lines after the first
marker line, skips further marker lines (re-enabling collection), collects
dash lines, skips blank lines and stops at the first other non-blank line;
`SPECIFIC_TIPS` collection is the same except that it stops only at the first
line containing `CONFIDENCE:` (other non-blank non-dash lines are skipped). -/
theorem claim7_amended (t : List Char) :
    extractedFactors t = specCollectedFactors t ∧
    extractedTips t = specCollectedTips t := by
  constructor
  · unfold extractedFactors specCollectedFactors
    by_cases h : containsSub mKEY t = true <;> simp [h, factorsLoop_false]
  · unfold extractedTips specCollectedTips
    by_cases h : containsSub mTIPS t = true <;> simp [h, tipsLoop_false]

/-- C8 (counterexample): for the reply `MESSAGE: hi`, which contains neither
`SPECIFIC_TIPS:` nor `CONFIDENCE:`, the extracted message is `h` — the
`find`-returns-`-1` slice drops the final character — while the claim
predicts the section runs to the end of the text, giving `hi`. -/
theorem claim8_counterexample :
    String.mk (messageOf "MESSAGE: hi".data) = "h" ∧
    String.mk (stripWs (List.drop 8 "MESSAGE: hi".data)) = "hi" ∧
    ("h" : String) ≠ "hi" := by
  refine ⟨rfl, rfl, by decide⟩

/-- C8 (amended): for every reply containing `MESSAGE:`, the extracted message
is the stripped substring from just after the marker to the first
`SPECIFIC_TIPS:` occurring at or after it; when that marker is absent, to the
first `CONFIDENCE:` at or after it; and when both are absent, to the end of
the text minus its final character. -/
theorem claim8_amended (t : List Char) : messageOf t = specMessageOf t := by
  unfold messageOf specMessageOf
  by_cases h : containsSub mMSG t = true
  · simp only [h, if_true]
    have hsome : (firstOccurAux mMSG t 0).isSome = true := by
      rw [firstOccurAux_isSome]; exact h
    obtain ⟨i, hi⟩ := Option.isSome_iff_exists.1 hsome
    have hff : firstOccurFrom mMSG t 0 = some i := by
      simp [firstOccurFrom, hi]
    have hm : pyFind mMSG t 0 = (i : Int) := by simp [pyFind, hff]
    have hcastN : ((i : Int) + 8).toNat = i + 8 := by omega
    have hcast2 : ((i : Int) + 8) = ((i + 8 : Nat) : Int) := by push_cast; ring
    rcases h1 : firstOccurFrom mTIPS t (i + 8) with _ | j
    · rcases h2 : firstOccurFrom mCONF t (i + 8) with _ | k
      · have he1 : pyFind mTIPS t (i + 8) = -1 := by simp [pyFind, h1]
        have he2 : pyFind mCONF t (i + 8) = -1 := by simp [pyFind, h2]
        simp only [hff, hm, hcastN, he1, he2, h1, h2, if_true]
        rw [hcast2, pySlice_neg_one]
      · have he1 : pyFind mTIPS t (i + 8) = -1 := by simp [pyFind, h1]
        have he2 : pyFind mCONF t (i + 8) = (k : Int) := by simp [pyFind, h2]
        simp only [hff, hm, hcastN, he1, he2, h1, h2, if_true]
        rw [hcast2, pySlice_natCast]
    · have he1 : pyFind mTIPS t (i + 8) = (j : Int) := by simp [pyFind, h1]
      have hne : ¬ ((j : Int) = -1) := by omega
      simp only [hff, hm, hcastN, he1, h1]
      rw [if_neg hne, hcast2, pySlice_natCast]
  · simp [h]

/-- C9 (code_bug): with a valid date and the provider raising `OuraAPIError`,
the readiness endpoint responds with status 509 while the sleep endpoint
responds with 503 — contradicting the rule that every upstream-dependency
fault maps to 503. -/
theorem claim9_readiness_509 :
    get_readiness_data "2024-01-15" (.ouraApiError "boom") =
      .error ⟨509, "Oura API error: boom"⟩ ∧
    get_sleep_data "2024-01-15" (.ouraApiError "boom") =
      .error ⟨503, "Oura API error: boom"⟩ ∧
    (509 : Nat) ≠ 503 := by
  refine ⟨rfl, rfl, by decide⟩

end OuraCoach
